import Mathlib

/-!
Verification of the email triage classifier in
`scripts/email_triage_agent.py` (class `EmailTriageAgent`) and its caller
`scripts/gmail_sync.py` (function `triage_email`).

The Python code is shallowly embedded as executable Lean functions:

* `strContains h n` models Python's substring test `n in h`; `lowerStr`,
  `trimStr`, `takeStr`, `strCount` model `str.lower()`, `str.strip()`,
  slicing `[:n]` and `str.count(..)`; all are implemented by structural
  recursion over the character list of the string so that concrete
  instances evaluate inside the kernel.
* `analyzeEmailIndicators` models `EmailTriageAgent._analyze_email_indicators`.
* `parseLLMResult` models the parsing of the raw LLM text inside
  `EmailTriageAgent.triage_email` (lines 320-342 of the source).
* `sg1` / `sg2` / `sg3` / `applySafeguards` model the three safeguard
  overrides (lines 344-360).
* `triage_email` models `EmailTriageAgent.triage_email` on present (non-None)
  string fields, with the raw LLM response text passed as an argument.
* `triageEmailExc` models the same method when the LLM call itself may raise:
  the method has no try/except around `crew.kickoff()`, so an LLM exception
  propagates out of it.
* `gmailSyncTriage` models `gmail_sync.triage_email`, which wraps the agent
  call in try/except and defaults to `notify` on error.
* `triageEmailOpt` models `EmailTriageAgent.triage_email` when the three
  fields may be `None`: `_analyze_email_indicators` guards `None` with
  `subject.lower() if subject else ""`, but the safeguard block calls
  `subject.lower()` / `sender.lower()` unguarded, which raises
  `AttributeError` on `None`.

Confidences are Python float literals `0.95`, `0.9` and `0`, and the only
operation ever applied to them is the comparison `confidence >= 0.9`
(line 296); they are modelled exactly as the natural numbers `95`, `90`, `0`
on a per-cent scale, with the comparison `90 ≤ confidence`.

`str.lower()` is modelled by `Char.toLower` (ASCII case mapping), which
agrees with Python on all the ASCII keyword material the classifier matches.
-/

/-- `charsLeads n h` is true when the list `n` is an initial segment of `h`. -/
def charsLeads : List Char → List Char → Bool
  | [], _ => true
  | _ :: _, [] => false
  | a :: as, b :: bs => a == b && charsLeads as bs

/-- Substring occurrence on character lists: some suffix of `haystack`
starts with `needle`. -/
def charsContains (haystack needle : List Char) : Bool :=
  match haystack with
  | [] => needle.isEmpty
  | _ :: t => charsLeads needle haystack || charsContains t needle

/-- Number of positions of `haystack` at which `needle` starts.  For a
needle that cannot overlap itself — such as `"http"`, the only needle it is
used with — this equals Python's non-overlapping `str.count`. -/
def charsCount (haystack needle : List Char) : Nat :=
  match haystack with
  | [] => 0
  | _ :: t => (if charsLeads needle haystack then 1 else 0) + charsCount t needle

/-- Split a character list at its first newline: the part before it and,
when a newline is present, the part after it. -/
def breakAtNL : List Char → List Char × Option (List Char)
  | [] => ([], none)
  | c :: t =>
    if c == '\n' then ([], some t)
    else
      let r := breakAtNL t
      (c :: r.1, r.2)

/-- Remove leading and trailing whitespace from a character list. -/
def trimChars (l : List Char) : List Char :=
  ((l.dropWhile Char.isWhitespace).reverse.dropWhile Char.isWhitespace).reverse

/-- Python's substring test `needle in haystack`. -/
def strContains (haystack needle : String) : Bool :=
  charsContains haystack.data needle.data

/-- Python's `s.lower()` (ASCII case mapping). -/
def lowerStr (s : String) : String :=
  ⟨s.data.map Char.toLower⟩

/-- Python's `s.strip()`. -/
def trimStr (s : String) : String :=
  ⟨trimChars s.data⟩

/-- Python's slice `s[:n]` (by code point, as in Python). -/
def takeStr (s : String) (n : Nat) : String :=
  ⟨s.data.take n⟩

/-- Python's `s.count(needle)` for the needles used by the source. -/
def strCount (haystack needle : String) : Nat :=
  charsCount haystack.data needle.data

/-- Python's `s.split("\n", 1)`: the first line and, when a newline is
present, the remainder. -/
def splitOnceNL (s : String) : String × Option String :=
  match breakAtNL s.data with
  | (a, none) => (⟨a⟩, none)
  | (a, some b) => (⟨a⟩, some ⟨b⟩)

/-- `subject.lower() if subject else ""`: Python `None` (and `""`) map to `""`. -/
def pyLowerOr (s : Option String) : String :=
  match s with
  | none => ""
  | some t => lowerStr t

/-- An unguarded Python `s.lower()` on a possibly-`None` value: raises
`AttributeError` on `None`. -/
def pyLowerExc (s : Option String) : Except String String :=
  match s with
  | none => Except.error "AttributeError: \x27NoneType\x27 object has no attribute \x27lower\x27"
  | some t => Except.ok (lowerStr t)

/-- The subject terms of indicator rule 1 and safeguard 1 (source lines 183, 347). -/
def vmTerms : List String := ["voice message", "text message", "fax"]

/-- `any(term in subject_lower for term in ["voice message", "text message", "fax"])`. -/
def vmSubject (subject_lower : String) : Bool :=
  vmTerms.any (fun t => strContains subject_lower t)

/-- `"bill" in subject_lower and "due" in subject_lower` (source lines 187, 358). -/
def billDue (subject_lower : String) : Bool :=
  strContains subject_lower "bill" && strContains subject_lower "due"

/-- Indicator rule 1 condition (source line 183); safeguard 1 (line 347)
tests the same conjunction. -/
def rule1 (subject_lower sender_lower : String) : Bool :=
  vmSubject subject_lower && strContains sender_lower "ringcentral"

/-- Indicator rule 2 condition (source line 187). -/
def rule2 (subject_lower : String) : Bool :=
  billDue subject_lower || strContains subject_lower "payment required"

/-- `legal_indicators` (source lines 191-194). -/
def legalIndicators : List String :=
  ["case", "court", "filing", "attorney", "lawyer", "legal",
   "hearing", "plaintiff", "defendant", "estate", "vs.", "v."]

/-- The `for indicator in legal_indicators` loop (source lines 196-198): the
first legal indicator occurring in the subject, if any. -/
def rule3find (subject_lower : String) : Option String :=
  legalIndicators.find? (fun t => strContains subject_lower t)

/-- `team_domains` (source line 201). -/
def teamDomains : List String := ["whaleylawfirm.com", "filevine.com", "blazeo.com"]

/-- Indicator rule 4 condition (source line 202). -/
def rule4 (sender_lower : String) : Bool :=
  teamDomains.any (fun d => strContains sender_lower d)

/-- `platform_indicators` paired with the reason each index yields in the
`for i, indicator in enumerate(platform_indicators)` loop (source lines 210-250). -/
def platformIndicators (subject_lower body_lower sender_lower : String) :
    List (Bool × String) :=
  [(strContains subject_lower "new notification",
    "Email contains \x27new notification\x27 in subject"),
   (strContains subject_lower "notification" && !strContains subject_lower "court",
    "Email contains \x27notification\x27 in subject"),
   (strContains subject_lower "digest",
    "Email is a digest"),
   (strContains body_lower "what you missed",
    "Email contains \x27what you missed\x27"),
   (strContains body_lower "notification since",
    "Email contains \x27notification since\x27"),
   (strContains sender_lower "noreply",
    "Email is from noreply address"),
   (strContains sender_lower "no-reply",
    "Email is from no-reply address"),
   (strContains sender_lower "donotreply",
    "Email is from donotreply address"),
   (strContains sender_lower "notification",
    "Email is from notification sender"),
   (strContains subject_lower "updates" && strContains subject_lower "new",
    "Email contains \x27updates\x27 and \x27new\x27 in subject"),
   (["skool.com", "medium.com", "facebook.com", "twitter.com", "linkedin.com"].any
      (fun d => strContains sender_lower d),
    "Email is from social/platform domain"),
   (strContains (takeStr body_lower 500) "view online",
    "Email has \x27view online\x27 at top"),
   (strContains body_lower "view in browser",
    "Email has \x27view in browser\x27"),
   (strContains body_lower "email preferences",
    "Email mentions email preferences"),
   (strContains body_lower "unsubscribe" &&
      (strContains body_lower "offer" || strContains body_lower "discount"),
    "Email has unsubscribe and offer/discount"),
   (5 < strCount body_lower "http",
    "Email contains many links (marketing)"),
   (strContains body_lower "too many emails",
    "Email mentions \x27too many emails\x27")]

/-- `if any(platform_indicators)` followed by the first-true-wins loop
(source lines 230-250): the first platform indicator that fired, with its
reason. -/
def platformFind (subject_lower body_lower sender_lower : String) :
    Option (Bool × String) :=
  (platformIndicators subject_lower body_lower sender_lower).find? (fun p => p.1)

/-- `marketing_indicators` (source lines 253-270). -/
def marketingIndicators (subject_lower body_lower : String) : List Bool :=
  [strContains subject_lower "offer",
   strContains subject_lower "discount",
   strContains subject_lower "sale",
   strContains subject_lower "deal",
   strContains subject_lower "promotion",
   strContains subject_lower "special" && strContains subject_lower "offer",
   strContains subject_lower "coupon",
   strContains subject_lower "limited time" ||
     strContains (takeStr body_lower 500) "limited time",
   strContains subject_lower "off" && strContains subject_lower "%",
   strContains subject_lower "exclusive",
   strContains subject_lower "reward" && !strContains subject_lower "law",
   strContains (takeStr body_lower 500) "pro days",
   strContains subject_lower "pro days",
   strContains subject_lower "come back",
   strContains subject_lower "miss you",
   strContains subject_lower "save" && strContains subject_lower "$"]

/-- `if any(marketing_indicators)` (source line 272). -/
def marketingAny (subject_lower body_lower : String) : Bool :=
  (marketingIndicators subject_lower body_lower).any (fun b => b)

/-- The body of `EmailTriageAgent._analyze_email_indicators` after the three
`.lower()` conversions: returns `(likely_category, confidence, reasoning)`
with the confidence on a per-cent scale. -/
def analyzeLower (subject_lower body_lower sender_lower : String) :
    Option String × Nat × String :=
  if rule1 subject_lower sender_lower then
    (some "notify", 95, "Message notification from RingCentral")
  else if rule2 subject_lower then
    (some "notify", 95, "Bill or payment notification")
  else
    match rule3find subject_lower with
    | some ind => (some "respond", 95, "Legal term in subject: \x27" ++ ind ++ "\x27")
    | none =>
      if rule4 sender_lower then
        (some "respond", 95, "Email from team member domain")
      else
        match platformFind subject_lower body_lower sender_lower with
        | some p => (some "ignore", 90, p.2)
        | none =>
          if marketingAny subject_lower body_lower then
            (some "ignore", 90, "Email contains marketing/promotional content")
          else
            (none, 0, "No conclusive indicators found, need AI analysis")

/-- `EmailTriageAgent._analyze_email_indicators(subject, body, sender)` on
present (string) fields. -/
def analyzeEmailIndicators (subject body sender : String) :
    Option String × Nat × String :=
  analyzeLower (lowerStr subject) (lowerStr body) (lowerStr sender)

/-- Parsing of the raw LLM response inside `EmailTriageAgent.triage_email`
(source lines 320-342): strip, split at the first newline, match the first
line (lower-cased, stripped) against the three categories, defaulting to
`notify` when it matches none of them. -/
def parseLLMResult (raw : String) : String × String :=
  let result_text := trimStr raw
  let parts := splitOnceNL result_text
  let category_text := trimStr (lowerStr parts.1)
  let reasoning :=
    match parts.2 with
    | some r => trimStr r
    | none => "No reasoning provided"
  if category_text = "ignore" then ("ignore", reasoning)
  else if category_text = "notify" then ("notify", reasoning)
  else if category_text = "respond" then ("respond", reasoning)
  else
    ("notify",
     "Could not determine exact category from \x27" ++ category_text ++
       "\x27, defaulting to \x27notify\x27.\n" ++ result_text)

/-- `legal_terms` of safeguard 2 (source line 352). -/
def safeguardLegalTerms : List String :=
  ["case", "court", "attorney", "estate", "v.", "vs.", "plaintiff", "defendant"]

/-- Safeguard 1 (source lines 347-349): RingCentral voice/text/fax messages
are never ignored. -/
def sg1 (subject sender : String) (cr : String × String) : String × String :=
  if cr.1 == "ignore" && rule1 (lowerStr subject) (lowerStr sender) then
    ("notify",
     "SAFEGUARD OVERRIDE: Voice/text/fax messages should not be ignored.\nOriginal reasoning: "
       ++ cr.2)
  else cr

/-- Safeguard 2 (source lines 352-355): legal correspondence is never ignored. -/
def sg2 (subject : String) (cr : String × String) : String × String :=
  if cr.1 == "ignore" &&
      safeguardLegalTerms.any (fun t => strContains (lowerStr subject) t) then
    ("respond",
     "SAFEGUARD OVERRIDE: Legal correspondence should not be ignored.\nOriginal reasoning: "
       ++ cr.2)
  else cr

/-- Safeguard 3 (source lines 358-360): bills and payment notices are never
ignored. -/
def sg3 (subject : String) (cr : String × String) : String × String :=
  if cr.1 == "ignore" && billDue (lowerStr subject) then
    ("notify",
     "SAFEGUARD OVERRIDE: Bills and payment notices should not be ignored.\nOriginal reasoning: "
       ++ cr.2)
  else cr

/-- The Safeguard Policy: the three overrides of source lines 344-360 in order. -/
def applySafeguards (subject sender : String) (cr : String × String) :
    String × String :=
  sg3 subject (sg2 subject (sg1 subject sender cr))

/-- `if pre_category and confidence >= 0.9` (source line 296): whether the
fast path returns without invoking the LLM. -/
def fastPath (subject body sender : String) : Bool :=
  (analyzeEmailIndicators subject body sender).1.isSome &&
    decide (90 ≤ (analyzeEmailIndicators subject body sender).2.1)

/-- The fast-path return value (source line 297). -/
def fastResult (subject body sender : String) : String × String :=
  ((analyzeEmailIndicators subject body sender).1.getD "",
   "Automatic categorization: " ++ (analyzeEmailIndicators subject body sender).2.2)

/-- `EmailTriageAgent.triage_email(subject, body, sender)` on present string
fields, with `llmRaw` the raw text the LLM call returns on the fallback path. -/
def triage_email (subject body sender llmRaw : String) : String × String :=
  if fastPath subject body sender then fastResult subject body sender
  else applySafeguards subject sender (parseLLMResult llmRaw)

/-- The `(category, reasoning)` pair produced by whichever control path ran,
before the safeguard block is reached (source lines 293-342). -/
def preSafeguard (subject body sender llmRaw : String) : String × String :=
  if fastPath subject body sender then fastResult subject body sender
  else parseLLMResult llmRaw

/-- `EmailTriageAgent.triage_email` with a fallible LLM call: the method has
no try/except around `crew.kickoff()` (source lines 299-317), so an exception
from the LLM call propagates out of the method. -/
def triageEmailExc (subject body sender : String) (llm : Except String String) :
    Except String (String × String) :=
  if fastPath subject body sender then Except.ok (fastResult subject body sender)
  else
    match llm with
    | Except.error e => Except.error e
    | Except.ok raw => Except.ok (applySafeguards subject sender (parseLLMResult raw))

/-- `gmail_sync.triage_email` (source lines 153-196): runs the agent inside
try/except, validates the category, and defaults to `notify` on any exception. -/
def gmailSyncTriage (subject body sender : String) (llm : Except String String) :
    String × String :=
  match triageEmailExc subject body sender llm with
  | Except.error e => ("notify", "Triage failed with error: " ++ e)
  | Except.ok cr =>
    if cr.1 == "ignore" || cr.1 == "notify" || cr.1 == "respond" then cr
    else
      (("notify" : String),
       cr.2 ++ "\n[SYSTEM: Invalid category detected, defaulting to \x27notify\x27]")

/-- Safeguard 1 with possibly-`None` fields, following Python evaluation
order: `subject.lower()` is evaluated whenever the incoming category is
`"ignore"`, and `sender.lower()` whenever the subject also mentions a
voice/text/fax term; on `None` these raise. -/
def sg1Opt (subject sender : Option String) (cr : String × String) :
    Except String (String × String) :=
  if cr.1 == "ignore" then
    match pyLowerExc subject with
    | Except.error e => Except.error e
    | Except.ok sl =>
      if vmSubject sl then
        match pyLowerExc sender with
        | Except.error e => Except.error e
        | Except.ok snl =>
          if strContains snl "ringcentral" then
            Except.ok
              ("notify",
               "SAFEGUARD OVERRIDE: Voice/text/fax messages should not be ignored.\nOriginal reasoning: "
                 ++ cr.2)
          else Except.ok cr
      else Except.ok cr
  else Except.ok cr

/-- Safeguard 2 with a possibly-`None` subject. -/
def sg2Opt (subject : Option String) (cr : String × String) :
    Except String (String × String) :=
  if cr.1 == "ignore" then
    match pyLowerExc subject with
    | Except.error e => Except.error e
    | Except.ok sl =>
      if safeguardLegalTerms.any (fun t => strContains sl t) then
        Except.ok
          ("respond",
           "SAFEGUARD OVERRIDE: Legal correspondence should not be ignored.\nOriginal reasoning: "
             ++ cr.2)
      else Except.ok cr
  else Except.ok cr

/-- Safeguard 3 with a possibly-`None` subject. -/
def sg3Opt (subject : Option String) (cr : String × String) :
    Except String (String × String) :=
  if cr.1 == "ignore" then
    match pyLowerExc subject with
    | Except.error e => Except.error e
    | Except.ok sl =>
      if billDue sl then
        Except.ok
          ("notify",
           "SAFEGUARD OVERRIDE: Bills and payment notices should not be ignored.\nOriginal reasoning: "
             ++ cr.2)
      else Except.ok cr
  else Except.ok cr

/-- The safeguard block of `EmailTriageAgent.triage_email` with possibly-`None`
subject/sender. -/
def applySafeguardsOpt (subject sender : Option String) (cr : String × String) :
    Except String (String × String) :=
  match sg1Opt subject sender cr with
  | Except.error e => Except.error e
  | Except.ok r1 =>
    match sg2Opt subject r1 with
    | Except.error e => Except.error e
    | Except.ok r2 => sg3Opt subject r2

/-- `EmailTriageAgent.triage_email` with possibly-`None` fields:
`_analyze_email_indicators` tolerates `None` (source lines 174-176), but the
safeguard block calls `.lower()` unguarded (source lines 347, 353, 358). -/
def triageEmailOpt (subject body sender : Option String) (llmRaw : String) :
    Except String (String × String) :=
  let pre := analyzeLower (pyLowerOr subject) (pyLowerOr body) (pyLowerOr sender)
  if pre.1.isSome && decide (90 ≤ pre.2.1) then
    Except.ok (pre.1.getD "", "Automatic categorization: " ++ pre.2.2)
  else applySafeguardsOpt subject sender (parseLLMResult llmRaw)

theorem safeguard_mem_legal : ∀ t ∈ safeguardLegalTerms, t ∈ legalIndicators := by
  decide

theorem safeguardAny_eq_false (sl : String) (h : rule3find sl = none) :
    safeguardLegalTerms.any (fun t => strContains sl t) = false := by
  unfold rule3find at h
  rw [List.any_eq_false]
  intro t ht
  have h2 := List.find?_eq_none.mp h t (safeguard_mem_legal t ht)
  simpa using h2

theorem sg1_eq_of_ne (subject sender : String) (cr : String × String)
    (h : cr.1 ≠ "ignore") : sg1 subject sender cr = cr := by
  unfold sg1
  simp [h]

theorem sg1_eq_of_rule1 (subject sender : String) (cr : String × String)
    (h : rule1 (lowerStr subject) (lowerStr sender) = false) :
    sg1 subject sender cr = cr := by
  unfold sg1
  simp [h]

theorem sg1_cases (subject sender : String) (cr : String × String) :
    sg1 subject sender cr = cr ∨ (sg1 subject sender cr).1 = "notify" := by
  unfold sg1
  split
  · right; rfl
  · left; rfl

theorem sg2_eq_of_ne (subject : String) (cr : String × String)
    (h : cr.1 ≠ "ignore") : sg2 subject cr = cr := by
  unfold sg2
  simp [h]

theorem sg2_eq_of_none (subject : String) (cr : String × String)
    (h : rule3find (lowerStr subject) = none) : sg2 subject cr = cr := by
  unfold sg2
  rw [safeguardAny_eq_false (lowerStr subject) h]
  simp

theorem sg2_cases (subject : String) (cr : String × String) :
    sg2 subject cr = cr ∨ (sg2 subject cr).1 = "respond" := by
  unfold sg2
  split
  · right; rfl
  · left; rfl

theorem sg3_eq_of_ne (subject : String) (cr : String × String)
    (h : cr.1 ≠ "ignore") : sg3 subject cr = cr := by
  unfold sg3
  simp [h]

theorem sg3_eq_of_bd (subject : String) (cr : String × String)
    (h : billDue (lowerStr subject) = false) : sg3 subject cr = cr := by
  unfold sg3
  simp [h]

theorem sg3_cases (subject : String) (cr : String × String) :
    sg3 subject cr = cr ∨ (sg3 subject cr).1 = "notify" := by
  unfold sg3
  split
  · right; rfl
  · left; rfl

theorem applySafeguards_eq_of_ne (subject sender : String) (cr : String × String)
    (h : cr.1 ≠ "ignore") : applySafeguards subject sender cr = cr := by
  unfold applySafeguards
  rw [sg1_eq_of_ne subject sender cr h, sg2_eq_of_ne subject cr h,
    sg3_eq_of_ne subject cr h]

theorem applySafeguards_fst_cases (subject sender : String) (cr : String × String) :
    (applySafeguards subject sender cr).1 = cr.1 ∨
      (applySafeguards subject sender cr).1 = "notify" ∨
      (applySafeguards subject sender cr).1 = "respond" := by
  unfold applySafeguards
  rcases sg3_cases subject (sg2 subject (sg1 subject sender cr)) with h3 | h3
  · rw [h3]
    rcases sg2_cases subject (sg1 subject sender cr) with h2 | h2
    · rw [h2]
      rcases sg1_cases subject sender cr with h1 | h1
      · rw [h1]; left; rfl
      · right; left; exact h1
    · right; right; exact h2
  · right; left; exact h3

theorem analyzeLower_fst_cases (sl bl snl : String) :
    (analyzeLower sl bl snl).1 = none ∨ (analyzeLower sl bl snl).1 = some "notify" ∨
      (analyzeLower sl bl snl).1 = some "respond" ∨
      (analyzeLower sl bl snl).1 = some "ignore" := by
  unfold analyzeLower
  repeat' split
  all_goals simp

theorem analyzeLower_ignore (sl bl snl : String)
    (h : (analyzeLower sl bl snl).1 = some "ignore") :
    rule1 sl snl = false ∧ rule2 sl = false ∧ rule3find sl = none := by
  by_cases h1 : rule1 sl snl = true
  · exfalso
    unfold analyzeLower at h
    simp [h1] at h
  · by_cases h2 : rule2 sl = true
    · exfalso
      unfold analyzeLower at h
      simp [h1, h2] at h
    · cases h3 : rule3find sl with
      | some ind =>
        exfalso
        unfold analyzeLower at h
        simp [h1, h2, h3] at h
      | none =>
        exact ⟨by simpa using h1, by simpa using h2, rfl⟩

theorem parseLLMResult_fst_cases (raw : String) :
    (parseLLMResult raw).1 = "ignore" ∨ (parseLLMResult raw).1 = "notify" ∨
      (parseLLMResult raw).1 = "respond" := by
  unfold parseLLMResult
  dsimp only
  repeat' split
  all_goals simp

theorem fastResult_fst (subject body sender : String) :
    (fastResult subject body sender).1 =
      (analyzeEmailIndicators subject body sender).1.getD "" := rfl

theorem applySafeguards_fastResult (subject body sender : String) :
    applySafeguards subject sender (fastResult subject body sender) =
      fastResult subject body sender := by
  rcases analyzeLower_fst_cases (lowerStr subject) (lowerStr body) (lowerStr sender)
    with h | h | h | h
  · apply applySafeguards_eq_of_ne
    rw [fastResult_fst]
    unfold analyzeEmailIndicators
    rw [h]
    decide
  · apply applySafeguards_eq_of_ne
    rw [fastResult_fst]
    unfold analyzeEmailIndicators
    rw [h]
    decide
  · apply applySafeguards_eq_of_ne
    rw [fastResult_fst]
    unfold analyzeEmailIndicators
    rw [h]
    decide
  · obtain ⟨hr1, hr2, hr3⟩ :=
      analyzeLower_ignore (lowerStr subject) (lowerStr body) (lowerStr sender) h
    have hbd : billDue (lowerStr subject) = false := by
      unfold rule2 at hr2
      exact (Bool.or_eq_false_iff.mp hr2).1
    unfold applySafeguards
    rw [sg1_eq_of_rule1 subject sender _ hr1, sg2_eq_of_none subject _ hr3,
      sg3_eq_of_bd subject _ hbd]

/-- C1: for every subject, body, sender, and LLM response text, if the sender
contains "ringcentral" (case-insensitive) and the subject contains
"voice message", "text message", or "fax" (case-insensitive), then
`EmailTriageAgent.triage_email` returns category "notify". -/
theorem claim_C1_ringcentral_notify (subject body sender llmRaw : String)
    (hvm : vmSubject (lowerStr subject) = true)
    (hrc : strContains (lowerStr sender) "ringcentral" = true) :
    (triage_email subject body sender llmRaw).1 = "notify" := by
  have h1 : rule1 (lowerStr subject) (lowerStr sender) = true := by
    unfold rule1
    rw [hvm, hrc]
    rfl
  have hA : analyzeEmailIndicators subject body sender =
      (some "notify", 95, "Message notification from RingCentral") := by
    unfold analyzeEmailIndicators analyzeLower
    rw [h1]
    rfl
  unfold triage_email fastPath fastResult
  rw [hA]
  simp

theorem claim_C1_witness :
    vmSubject (lowerStr "Voice Message from 555") = true ∧
      strContains (lowerStr "service@ringcentral.com") "ringcentral" = true ∧
      (triage_email "Voice Message from 555" "" "service@ringcentral.com"
          "ignore\nlooks automated").1 = "notify" :=
  ⟨by decide, by decide,
    claim_C1_ringcentral_notify "Voice Message from 555" "" "service@ringcentral.com"
      "ignore\nlooks automated" (by decide) (by decide)⟩

/-- C3: for every subject, body, sender, and LLM response text, if the subject
contains both "bill" and "due" (case-insensitive), then
`EmailTriageAgent.triage_email` returns category "notify". -/
theorem claim_C3_bill_due_notify (subject body sender llmRaw : String)
    (h : billDue (lowerStr subject) = true) :
    (triage_email subject body sender llmRaw).1 = "notify" := by
  by_cases h1 : rule1 (lowerStr subject) (lowerStr sender) = true
  · have hA : analyzeEmailIndicators subject body sender =
        (some "notify", 95, "Message notification from RingCentral") := by
      unfold analyzeEmailIndicators analyzeLower
      rw [h1]
      rfl
    unfold triage_email fastPath fastResult
    rw [hA]
    simp
  · have h2 : rule2 (lowerStr subject) = true := by
      unfold rule2
      rw [h]
      rfl
    have hA : analyzeEmailIndicators subject body sender =
        (some "notify", 95, "Bill or payment notification") := by
      unfold analyzeEmailIndicators analyzeLower
      simp [h1, h2]
    unfold triage_email fastPath fastResult
    rw [hA]
    simp

theorem claim_C3_witness :
    billDue (lowerStr "Your bill is due tomorrow") = true ∧
      (triage_email "Your bill is due tomorrow" "please pay" "billing@utility.com"
          "ignore\nlooks promotional").1 = "notify" :=
  ⟨by decide,
    claim_C3_bill_due_notify "Your bill is due tomorrow" "please pay"
      "billing@utility.com" "ignore\nlooks promotional" (by decide)⟩

/-- C5: for every subject, body, sender, and LLM response text, the category
returned by `EmailTriageAgent.triage_email` is exactly one of "ignore",
"notify", "respond". -/
theorem claim_C5_category_valid (subject body sender llmRaw : String) :
    (triage_email subject body sender llmRaw).1 = "ignore" ∨
      (triage_email subject body sender llmRaw).1 = "notify" ∨
      (triage_email subject body sender llmRaw).1 = "respond" := by
  unfold triage_email
  by_cases hf : fastPath subject body sender = true
  · simp only [hf, if_true]
    rcases analyzeLower_fst_cases (lowerStr subject) (lowerStr body) (lowerStr sender)
      with h | h | h | h
    · exfalso
      unfold fastPath analyzeEmailIndicators at hf
      rw [h] at hf
      simp at hf
    · right; left
      rw [fastResult_fst]
      unfold analyzeEmailIndicators
      rw [h]
      rfl
    · right; right
      rw [fastResult_fst]
      unfold analyzeEmailIndicators
      rw [h]
      rfl
    · left
      rw [fastResult_fst]
      unfold analyzeEmailIndicators
      rw [h]
      rfl
  · simp only [Bool.not_eq_true] at hf
    simp only [hf, Bool.false_eq_true, if_false]
    rcases applySafeguards_fst_cases subject sender (parseLLMResult llmRaw) with h | h | h
    · rw [h]
      exact parseLLMResult_fst_cases llmRaw
    · right; left; exact h
    · right; right; exact h

/-- C6: for every input, the value `EmailTriageAgent.triage_email` returns is
the Safeguard Policy applied to the `(category, reasoning)` pair produced by
whichever control path ran — on the fast path the safeguard rules are no-ops,
so the returned pair still equals the safeguarded pair. -/
theorem claim_C6_safeguards_both_paths (subject body sender llmRaw : String) :
    triage_email subject body sender llmRaw =
      applySafeguards subject sender (preSafeguard subject body sender llmRaw) := by
  unfold triage_email preSafeguard
  by_cases hf : fastPath subject body sender = true
  · simp only [hf, if_true]
    exact (applySafeguards_fastResult subject body sender).symm
  · simp only [Bool.not_eq_true] at hf
    simp only [hf, Bool.false_eq_true, if_false]

theorem applySafeguards_ne_ignore (subject sender : String) (cr : String × String)
    (h : safeguardLegalTerms.any (fun t => strContains (lowerStr subject) t) = true)
    (hcr : cr.1 = "ignore" ∨ cr.1 = "notify" ∨ cr.1 = "respond") :
    (applySafeguards subject sender cr).1 ≠ "ignore" := by
  unfold applySafeguards
  rcases sg1_cases subject sender cr with h1 | h1
  · rw [h1]
    rcases hcr with hc | hc | hc
    · have h2 : (sg2 subject cr).1 = "respond" := by
        unfold sg2
        simp [hc, h]
      rw [sg3_eq_of_ne subject (sg2 subject cr) (by rw [h2]; decide), h2]
      decide
    · rw [sg2_eq_of_ne subject cr (by rw [hc]; decide),
        sg3_eq_of_ne subject cr (by rw [hc]; decide), hc]
      decide
    · rw [sg2_eq_of_ne subject cr (by rw [hc]; decide),
        sg3_eq_of_ne subject cr (by rw [hc]; decide), hc]
      decide
  · rw [sg2_eq_of_ne subject _ (by rw [h1]; decide),
      sg3_eq_of_ne subject _ (by rw [h1]; decide), h1]
    decide

/-- C2: for every subject, body, sender, and LLM response text, if the subject
contains (case-insensitive) any legal keyword of the safeguard list ("case",
"court", "attorney", "estate", "v.", "vs.", "plaintiff", "defendant"), then
`EmailTriageAgent.triage_email` never returns category "ignore". -/
theorem claim_C2_legal_never_ignore (subject body sender llmRaw : String)
    (h : safeguardLegalTerms.any (fun t => strContains (lowerStr subject) t) = true) :
    (triage_email subject body sender llmRaw).1 ≠ "ignore" := by
  have hfind : (rule3find (lowerStr subject)).isSome := by
    unfold rule3find
    rw [List.find?_isSome]
    rw [List.any_eq_true] at h
    obtain ⟨t, ht, hp⟩ := h
    exact ⟨t, safeguard_mem_legal t ht, hp⟩
  unfold triage_email
  by_cases hf : fastPath subject body sender = true
  · simp only [hf, if_true]
    by_cases h1 : rule1 (lowerStr subject) (lowerStr sender) = true
    · rw [fastResult_fst]
      have hA : (analyzeEmailIndicators subject body sender).1 = some "notify" := by
        unfold analyzeEmailIndicators analyzeLower
        rw [h1]
        rfl
      rw [hA]
      decide
    · by_cases h2 : rule2 (lowerStr subject) = true
      · rw [fastResult_fst]
        have hA : (analyzeEmailIndicators subject body sender).1 = some "notify" := by
          unfold analyzeEmailIndicators analyzeLower
          simp [h1, h2]
        rw [hA]
        decide
      · obtain ⟨ind, hind⟩ := Option.isSome_iff_exists.mp hfind
        rw [fastResult_fst]
        have hA : (analyzeEmailIndicators subject body sender).1 = some "respond" := by
          unfold analyzeEmailIndicators analyzeLower
          simp [h1, h2, hind]
        rw [hA]
        decide
  · simp only [Bool.not_eq_true] at hf
    simp only [hf, Bool.false_eq_true, if_false]
    exact applySafeguards_ne_ignore subject sender (parseLLMResult llmRaw) h
      (parseLLMResult_fst_cases llmRaw)

theorem claim_C2_witness :
    safeguardLegalTerms.any
        (fun t => strContains (lowerStr "Re: Smith estate paperwork") t) = true ∧
      (triage_email "Re: Smith estate paperwork" "see attached" "smith@example.com"
          "ignore\nlooks like marketing").1 ≠ "ignore" :=
  ⟨by decide,
    claim_C2_legal_never_ignore "Re: Smith estate paperwork" "see attached"
      "smith@example.com" "ignore\nlooks like marketing" (by decide)⟩

/-- C4 (counterexample): the claim says an exception from the LLM call is
caught inside `EmailTriageAgent.triage_email` and turned into "notify" —
but on a concrete fallback-path input the method has no try/except around
`crew.kickoff()`, so the exception propagates to the caller. -/
theorem claim_C4_counterexample :
    triageEmailExc "Quick question about my dog" "hello" "janedoe@gmail.com"
        (Except.error "timeout") = Except.error "timeout" := rfl

/-- C4 (amended): on every input where the orchestrator takes the LLM
fallback path, an exception raised by the LLM call propagates out of
`EmailTriageAgent.triage_email`; it is the caller `gmail_sync.triage_email`
that catches it and returns category "notify" with a reasoning string
embedding the error text. -/
theorem claim_C4_llm_error_handling (subject body sender e : String)
    (h : fastPath subject body sender = false) :
    triageEmailExc subject body sender (Except.error e) = Except.error e ∧
      gmailSyncTriage subject body sender (Except.error e) =
        ("notify", "Triage failed with error: " ++ e) := by
  constructor
  · unfold triageEmailExc
    simp [h]
  · unfold gmailSyncTriage triageEmailExc
    simp [h]

theorem claim_C4_witness :
    fastPath "Quick question about my insurance" "hi Aaron" "janedoe@gmail.com" = false ∧
      triageEmailExc "Quick question about my insurance" "hi Aaron" "janedoe@gmail.com"
          (Except.error "APIConnectionError") = Except.error "APIConnectionError" ∧
      gmailSyncTriage "Quick question about my insurance" "hi Aaron" "janedoe@gmail.com"
          (Except.error "APIConnectionError") =
        ("notify", "Triage failed with error: " ++ "APIConnectionError") :=
  ⟨by decide,
    (claim_C4_llm_error_handling "Quick question about my insurance" "hi Aaron"
        "janedoe@gmail.com" "APIConnectionError" (by decide)).1,
    (claim_C4_llm_error_handling "Quick question about my insurance" "hi Aaron"
        "janedoe@gmail.com" "APIConnectionError" (by decide)).2⟩

/-- C7: for every LLM response text, if the first line of the stripped
response, lower-cased and stripped, is not exactly one of the three category
strings, then the parsed result (before safeguards) is category "notify" with
a reasoning string recording that the category could not be determined. -/
theorem claim_C7_parse_default_notify (raw : String)
    (h1 : trimStr (lowerStr (splitOnceNL (trimStr raw)).1) ≠ "ignore")
    (h2 : trimStr (lowerStr (splitOnceNL (trimStr raw)).1) ≠ "notify")
    (h3 : trimStr (lowerStr (splitOnceNL (trimStr raw)).1) ≠ "respond") :
    parseLLMResult raw =
      ("notify",
       "Could not determine exact category from \x27" ++
         trimStr (lowerStr (splitOnceNL (trimStr raw)).1) ++
         "\x27, defaulting to \x27notify\x27.\n" ++ trimStr raw) := by
  unfold parseLLMResult
  dsimp only
  rw [if_neg h1, if_neg h2, if_neg h3]

theorem claim_C7_witness :
    trimStr (lowerStr (splitOnceNL (trimStr "I think notify\nbecause it is a bill")).1) ≠
        "ignore" ∧
      parseLLMResult "I think notify\nbecause it is a bill" =
        ("notify",
         "Could not determine exact category from \x27" ++
           trimStr (lowerStr (splitOnceNL (trimStr "I think notify\nbecause it is a bill")).1) ++
           "\x27, defaulting to \x27notify\x27.\n" ++
           trimStr "I think notify\nbecause it is a bill") :=
  ⟨by decide,
    claim_C7_parse_default_notify "I think notify\nbecause it is a bill"
      (by decide) (by decide) (by decide)⟩

/-- C8: the Indicator Matcher is deterministic — its result is a function of
the three string inputs alone, so identical inputs yield identical
`(category, confidence, reason)` triples. -/
theorem claim_C8_deterministic (s1 b1 n1 s2 b2 n2 : String)
    (hs : s1 = s2) (hb : b1 = b2) (hn : n1 = n2) :
    analyzeEmailIndicators s1 b1 n1 = analyzeEmailIndicators s2 b2 n2 := by
  rw [hs, hb, hn]

theorem claim_C8_witness :
    ("Invoice overdue" : String) = "Invoice overdue" ∧
      analyzeEmailIndicators "Invoice overdue" "please remit" "ap@vendor.com" =
        analyzeEmailIndicators "Invoice overdue" "please remit" "ap@vendor.com" :=
  ⟨rfl,
    claim_C8_deterministic "Invoice overdue" "please remit" "ap@vendor.com"
      "Invoice overdue" "please remit" "ap@vendor.com" rfl rfl rfl⟩

/-- C10: for every subject whose lower-cased text contains "payment required"
but neither "bill" nor "due", the Indicator Matcher returns category "notify"
with confidence 0.95 (modelled as 95 per cent). -/
theorem claim_C10_payment_required (subject body sender : String)
    (hp : strContains (lowerStr subject) "payment required" = true)
    (hb : strContains (lowerStr subject) "bill" = false)
    (hd : strContains (lowerStr subject) "due" = false) :
    (analyzeEmailIndicators subject body sender).1 = some "notify" ∧
      (analyzeEmailIndicators subject body sender).2.1 = 95 := by
  by_cases h1 : rule1 (lowerStr subject) (lowerStr sender) = true
  · have hA : analyzeEmailIndicators subject body sender =
        (some "notify", 95, "Message notification from RingCentral") := by
      unfold analyzeEmailIndicators analyzeLower
      rw [h1]
      rfl
    rw [hA]
    exact ⟨rfl, rfl⟩
  · have h2 : rule2 (lowerStr subject) = true := by
      unfold rule2 billDue
      rw [hp, hb]
      rfl
    have hA : analyzeEmailIndicators subject body sender =
        (some "notify", 95, "Bill or payment notification") := by
      unfold analyzeEmailIndicators analyzeLower
      simp [h1, h2]
    rw [hA]
    exact ⟨rfl, rfl⟩

theorem claim_C10_witness :
    strContains (lowerStr "Payment Required: renew your plan") "payment required" = true ∧
      strContains (lowerStr "Payment Required: renew your plan") "bill" = false ∧
      strContains (lowerStr "Payment Required: renew your plan") "due" = false ∧
      (analyzeEmailIndicators "Payment Required: renew your plan" "renew today"
          "accounts@service.com").1 = some "notify" ∧
      (analyzeEmailIndicators "Payment Required: renew your plan" "renew today"
          "accounts@service.com").2.1 = 95 :=
  ⟨by decide, by decide, by decide,
    (claim_C10_payment_required "Payment Required: renew your plan" "renew today"
        "accounts@service.com" (by decide) (by decide) (by decide)).1,
    (claim_C10_payment_required "Payment Required: renew your plan" "renew today"
        "accounts@service.com" (by decide) (by decide) (by decide)).2⟩

theorem sg1Opt_some (subject sender : String) (cr : String × String) :
    sg1Opt (some subject) (some sender) cr = Except.ok (sg1 subject sender cr) := by
  unfold sg1Opt sg1 pyLowerExc rule1
  by_cases h1 : (cr.1 == "ignore") = true
  · by_cases h2 : vmSubject (lowerStr subject) = true
    · by_cases h3 : strContains (lowerStr sender) "ringcentral" = true
      · simp [h1, h2, h3]
      · simp [h1, h2, h3]
    · simp [h1, h2]
  · simp [h1]

theorem sg2Opt_some (subject : String) (cr : String × String) :
    sg2Opt (some subject) cr = Except.ok (sg2 subject cr) := by
  unfold sg2Opt sg2 pyLowerExc
  by_cases h1 : (cr.1 == "ignore") = true
  · by_cases h2 : safeguardLegalTerms.any (fun t => strContains (lowerStr subject) t) = true
    · simp [h1, h2]
    · simp [h1, h2]
  · simp [h1]

theorem sg3Opt_some (subject : String) (cr : String × String) :
    sg3Opt (some subject) cr = Except.ok (sg3 subject cr) := by
  unfold sg3Opt sg3 pyLowerExc
  by_cases h1 : (cr.1 == "ignore") = true
  · by_cases h2 : billDue (lowerStr subject) = true
    · simp [h1, h2]
    · simp [h1, h2]
  · simp [h1]

theorem applySafeguardsOpt_some (subject sender : String) (cr : String × String) :
    applySafeguardsOpt (some subject) (some sender) cr =
      Except.ok (applySafeguards subject sender cr) := by
  unfold applySafeguardsOpt applySafeguards
  rw [sg1Opt_some]
  dsimp only
  rw [sg2Opt_some]
  dsimp only
  rw [sg3Opt_some]

/-- C9 (counterexample): with a `None` subject, a non-`None` empty body, a
non-`None` sender, and an LLM response whose first line is "ignore", the
safeguard block of `EmailTriageAgent.triage_email` calls `subject.lower()` on
`None` and raises `AttributeError` — the call does not complete normally. -/
theorem claim_C9_counterexample :
    triageEmailOpt none (some "") (some "sales@shop.example") "ignore\nspam" =
      Except.error "AttributeError: \x27NoneType\x27 object has no attribute \x27lower\x27" := rfl

/-- C9 (amended): when all three fields are present — even as empty strings —
`EmailTriageAgent.triage_email` completes normally on both paths, including
the safeguard checks, for every LLM response, and agrees with the plain-string
model; but an absent (`None`) subject or sender can raise in the safeguard
block, as the counterexample shows. -/
theorem claim_C9_present_fields_total (subject body sender llmRaw : String) :
    triageEmailOpt (some subject) (some body) (some sender) llmRaw =
      Except.ok (triage_email subject body sender llmRaw) := by
  have h0 : triageEmailOpt (some subject) (some body) (some sender) llmRaw =
      if fastPath subject body sender then Except.ok (fastResult subject body sender)
      else applySafeguardsOpt (some subject) (some sender) (parseLLMResult llmRaw) := rfl
  rw [h0]
  unfold triage_email
  by_cases h : fastPath subject body sender = true
  · simp only [h, if_true]
  · simp only [Bool.not_eq_true] at h
    simp only [h, Bool.false_eq_true, if_false]
    exact applySafeguardsOpt_some subject sender (parseLLMResult llmRaw)
